import Mathlib

/-!
Verification of the `i-can-not-speak` text-to-speech utility.

Shallow embedding of `src/i_can_not_speak/sapi.py` and
`src/i_can_not_speak/service.py`.  PCM samples (numpy float arrays in the
source) are modelled as rational numbers, so that the arithmetic of the
source (division by 32768, clipping, peak scaling) is exact; external
effects (the SAPI engine, the wave read-back, the temporary file, audio
device playback) are modelled by explicit outcome parameters and
instrumented result records that report which effects occurred.
-/

/-- The default sample rate fixed by `SapiSynth.__init__`
(`self.default_samplerate = 16000`). -/
def default_samplerate : Nat := 16000

/-- `_clamp(value, lo, hi)` from `sapi.py`: `int(max(lo, min(hi, value)))`. -/
def _clamp (value lo hi : Int) : Int := max lo (min hi value)

/-- Truncation toward zero, the semantics of numpy `astype(np.int16)`
applied to an in-range float value (a C cast). -/
def truncQ (q : ℚ) : ℤ := if 0 ≤ q then ⌊q⌋ else ⌈q⌉

/-- One sample of the export conversion in `SapiSynth.export_wav`:
`np.clip(pcm * 32767.0, -32768.0, 32767.0).astype(np.int16)`. -/
def exportSample (x : ℚ) : ℤ := truncQ (min (32767 : ℚ) (max (-32768 : ℚ) (x * 32767)))

/-- One sample of the import conversion in `SapiSynth.synth_pcm16`:
`np.frombuffer(frames, dtype=np.int16).astype(np.float32) / 32768.0`. -/
def importSample (i : ℤ) : ℚ := (i : ℚ) / 32768

/-- The whole-buffer export conversion of `export_wav`. -/
def exportPcm (pcm : List ℚ) : List ℤ := pcm.map exportSample

/-- The whole-buffer import conversion of `synth_pcm16`. -/
def importPcm (frames : List ℤ) : List ℚ := frames.map importSample

/-- Python `str.strip()` with no argument: drop leading and trailing
whitespace, modelled on the character list of the string. -/
def pyStrip (cs : List Char) : List Char :=
  ((cs.dropWhile Char.isWhitespace).reverse.dropWhile Char.isWhitespace).reverse

/-- Outcomes of the external collaborators during one `synth_pcm16` call:
whether the SAPI engine call (`voice.Speak` and the surrounding COM block)
succeeds or raises, what the wave read-back yields (the int16 frames and
the file's sample rate) or whether it raises, and whether the temporary
file is already gone when the `finally` cleanup runs. -/
structure SynthParams where
  engineOutcome : Except String Unit
  readOutcome : Except String (List ℤ × Nat)
  tmpGoneAtCleanup : Bool

/-- Instrumented result of `SapiSynth.synth_pcm16`: the returned value or
the propagated exception, plus which effects occurred. -/
structure SynthResult where
  result : Except String (List ℚ × Nat)
  tmpCreated : Bool
  tmpExistsAfter : Bool
  cleanupRaised : Bool
  engineInvoked : Bool

/-- The `finally` block of `synth_pcm16`: `os.remove(tmp_path)` with
`FileNotFoundError` caught and ignored.  Returns
(does the temp file exist afterwards, did the cleanup raise). -/
def cleanupTmp (gone : Bool) : Bool × Bool :=
  if gone then
    (false, false)
  else
    (false, false)

/-- `SapiSynth.synth_pcm16`.  Blank text (after `strip()`) returns an
empty buffer at the default sample rate without creating the temporary
file or touching the engine.  Otherwise the temp file is created, the
engine renders into it, the file is read back and converted to floats,
and the `finally` block removes the file on every exit path. -/
def synth_pcm16 (p : SynthParams) (text : String) : SynthResult :=
  if pyStrip text.toList = [] then
    { result := .ok ([], default_samplerate)
      tmpCreated := false
      tmpExistsAfter := false
      cleanupRaised := false
      engineInvoked := false }
  else
    let cl := cleanupTmp p.tmpGoneAtCleanup
    match p.engineOutcome with
    | .error e =>
        { result := .error e
          tmpCreated := true
          tmpExistsAfter := cl.1
          cleanupRaised := cl.2
          engineInvoked := true }
    | .ok () =>
        match p.readOutcome with
        | .error e =>
            { result := .error e
              tmpCreated := true
              tmpExistsAfter := cl.1
              cleanupRaised := cl.2
              engineInvoked := true }
        | .ok (frames, samplerate) =>
            { result := .ok (importPcm frames, samplerate)
              tmpCreated := true
              tmpExistsAfter := cl.1
              cleanupRaised := cl.2
              engineInvoked := true }

/-- `SapiSynth.export_wav`: synthesize, fail with the empty-audio error
when the buffer is empty, otherwise convert to int16 and write the WAV
file.  `.ok` carries the frames written to the file; `.error` means no
file was written. -/
def export_wav (p : SynthParams) (text : String) : Except String (List ℤ × Nat) :=
  match (synth_pcm16 p text).result with
  | .error e => .error e
  | .ok (pcm, samplerate) =>
      if pcm.length = 0 then
        .error "No audio was generated for the provided text."
      else
        .ok (exportPcm pcm, samplerate)

/-! Service façade (`service.py`). -/

/-- `PREFERRED_VB_KEYWORDS` from `service.py`. -/
def PREFERRED_VB_KEYWORDS : List String := ["CABLE Input", "VB-Audio", "Virtual Cable"]

/-- One row of the sounddevice device table (`sd.query_devices()`):
its name and `max_output_channels`. -/
structure RawDevice where
  name : String
  maxOutputChannels : Nat

/-- `OutputDevice` from `service.py`. -/
structure OutputDevice where
  index : Nat
  name : String
deriving DecidableEq

/-- Does `hay` begin with `pat`? (character-list version). -/
def beginsWith : List Char → List Char → Bool
  | _, [] => true
  | [], _ :: _ => false
  | a :: hs, b :: ps => a == b && beginsWith hs ps

/-- Python substring containment `pat in hay` on character lists. -/
def strContainsAux : List Char → List Char → Bool
  | hay, pat =>
      beginsWith hay pat ||
        match hay with
        | [] => false
        | _ :: t => strContainsAux t pat

/-- The match test of `_auto_pick_output_device`:
`name = device.name.lower(); any(kw.lower() in name for kw in keywords)`. -/
def nameMatches (keywords : List String) (nm : String) : Bool :=
  let lname := nm.toList.map Char.toLower
  keywords.any fun kw => strContainsAux lname (kw.toList.map Char.toLower)

/-- `TalkAsMicService.list_output_devices`: enumerate the device table and
keep devices with at least one output channel, remembering their index in
the enumeration. -/
def list_output_devices (devs : List RawDevice) : List OutputDevice :=
  ((devs.enum.filter fun p => 0 < p.2.maxOutputChannels).map
    fun p => { index := p.1, name := p.2.name })

/-- `TalkAsMicService._auto_pick_output_device`: first device whose
lowercased name contains a lowercased keyword; otherwise the system
default output index (`sd.default.device[1]` when that is a pair, `None`
otherwise, modelled by the `defaultOut` parameter). -/
def _auto_pick_output_device (devs : List RawDevice) (keywords : List String)
    (defaultOut : Option Nat) : Option Nat :=
  match (list_output_devices devs).find? (fun d => nameMatches keywords d.name) with
  | some d => some d.index
  | none => defaultOut

/-- Mutable state of `TalkAsMicService`. -/
structure ServiceState where
  device_vb : Option Nat
  device_monitor : Option Nat
  voice_token_id : Option String
  rate : Int
  volume : Int
deriving DecidableEq

/-- `TalkAsMicService.set_rate`: `self.rate = max(-10, min(10, int(value)))`. -/
def set_rate (s : ServiceState) (value : Int) : ServiceState :=
  { s with rate := max (-10) (min 10 value) }

/-- `TalkAsMicService.set_volume`: `self.volume = max(0, min(100, int(value)))`. -/
def set_volume (s : ServiceState) (value : Int) : ServiceState :=
  { s with volume := max 0 (min 100 value) }

/-- `float(np.max(np.abs(pcm)))` for a buffer, 0 for the empty buffer
(the source only evaluates it on non-empty buffers). -/
def peak (pcm : List ℚ) : ℚ := pcm.foldr (fun x m => max |x| m) 0

/-- The peak-normalization step of `TalkAsMicService.synthesize`:
`if peak > 0.99: pcm = pcm * (0.99 / peak)`. -/
def normalizePeak (pcm : List ℚ) : List ℚ :=
  let p := peak pcm
  if p > 99 / 100 then pcm.map (fun x => x * (99 / 100 / p)) else pcm

/-- `TalkAsMicService.synthesize`: run the backend, fail with the
empty-audio error on an empty buffer, then peak-normalize. -/
def synthesize (p : SynthParams) (text : String) : Except String (List ℚ × Nat) :=
  match (synth_pcm16 p text).result with
  | .error e => .error e
  | .ok (pcm, samplerate) =>
      if pcm.length = 0 then
        .error "Speech synthesis returned empty audio."
      else
        .ok (normalizePeak pcm, samplerate)

/-- The per-thread results list built by `_play_async` runners: each
started playback appends `(device_index, error)`.  `play d = none` means
playback on device `d` succeeded; `play d = some msg` means it raised
`msg`.  Thread interleaving permutes this list; the claims below only
depend on its members, which are interleaving-independent. -/
def gatherResults (devices : List Nat) (play : Nat → Option String) :
    List (Nat × Option String) :=
  devices.map fun d => (d, play d)

/-- `errors = [f"#{idx}: {err}" for idx, err in results if err is not None]`,
kept as (index, message) pairs. -/
def failuresOf (results : List (Nat × Option String)) : List (Nat × String) :=
  results.filterMap fun r => r.2.map fun m => (r.1, m)

/-- The combined error message of `speak`:
`"Failed to play audio on device(s): " + "; ".join(errors)`. -/
def combinedMessage (fails : List (Nat × String)) : String :=
  "Failed to play audio on device(s): " ++
    String.intercalate "; " (fails.map fun f => "#" ++ toString f.1 ++ ": " ++ f.2)

/-- The playback phase of `speak`: start one playback per configured
device, join all, and aggregate the captured failures into one error. -/
def playAll (devices : List Nat) (play : Nat → Option String) : Except String Unit :=
  let fails := failuresOf (gatherResults devices play)
  if fails.isEmpty then .ok () else .error (combinedMessage fails)

/-- Instrumented result of `speak`: the outcome plus the devices on which
a playback stream open was attempted. -/
structure SpeakOutcome where
  result : Except String Unit
  playbackDevices : List Nat

/-- `TalkAsMicService.speak`: synthesize, fail when no virtual-mic device
is selected, then fan playback out to the primary device and the optional
monitor device, aggregating per-device failures. -/
def speak (p : SynthParams) (play : Nat → Option String) (s : ServiceState)
    (text : String) : SpeakOutcome :=
  match synthesize p text with
  | .error e => { result := .error e, playbackDevices := [] }
  | .ok _ =>
      match s.device_vb with
      | none =>
          { result := .error
              "No VB-CABLE or virtual microphone output device has been selected."
            playbackDevices := [] }
      | some vb =>
          let devices := vb :: (match s.device_monitor with
            | some m => [m]
            | none => [])
          { result := playAll devices play
            playbackDevices := devices }

/-! COM initialization guard (`_com_scope` in `sapi.py`).  The thread-local
state is the reference count together with counters of the `CoInitialize`
and `CoUninitialize` calls made so far on this thread. -/

/-- Thread-local COM bookkeeping: the `_COM_STATE.count` value plus
how many times `CoInitialize` and `CoUninitialize` have run. -/
structure ComState where
  count : Nat
  initCalls : Nat
  uninitCalls : Nat
deriving DecidableEq

/-- The entry half of `_com_scope`: with a positive count only increment;
with a zero count call `CoInitialize` once and set the count to 1. -/
def comEnter (s : ComState) : ComState :=
  if 0 < s.count then
    { s with count := s.count + 1 }
  else
    { count := 1, initCalls := s.initCalls + 1, uninitCalls := s.uninitCalls }

mutual

/-- Well-nested uses of `_com_scope` on one thread: a scope whose body
enters a (possibly empty) sequence of nested scopes.  An exception raised
inside a body unwinds through every `finally`, so it behaves exactly like
the tree in which the scopes not yet entered are absent; quantifying over
all trees therefore covers both the success and the exception exit path. -/
inductive ScopeTree where
  | node : ScopeForest → ScopeTree

/-- A sequence of sibling `_com_scope` uses inside one body. -/
inductive ScopeForest where
  | nil : ScopeForest
  | cons : ScopeTree → ScopeForest → ScopeForest

end

mutual

/-- Run one `with _com_scope():` block: enter, run the body's nested
scopes, then run the `finally` of the branch that was taken at entry
(nested branch: decrement; outer branch: zero the count and call
`CoUninitialize`). -/
def runScope : ScopeTree → ComState → ComState
  | .node body, s =>
      if 0 < s.count then
        let s2 := runForest body (comEnter s)
        { s2 with count := s2.count - 1 }
      else
        let s2 := runForest body (comEnter s)
        { count := 0, initCalls := s2.initCalls, uninitCalls := s2.uninitCalls + 1 }

/-- Run the scopes of a body one after another. -/
def runForest : ScopeForest → ComState → ComState
  | .nil, s => s
  | .cons t rest, s => runForest rest (runScope t s)

end

/-! Helper lemmas. -/

theorem cleanupTmp_eq (gone : Bool) : cleanupTmp gone = (false, false) := by
  cases gone <;> rfl

theorem peak_nonneg (pcm : List ℚ) : 0 ≤ peak pcm := by
  induction pcm with
  | nil => exact le_refl 0
  | cons a l ih => exact le_trans ih (le_max_right _ _)

theorem peak_map_mul (c : ℚ) (hc : 0 ≤ c) (pcm : List ℚ) :
    peak (pcm.map fun x => x * c) = peak pcm * c := by
  induction pcm with
  | nil => simp [peak]
  | cons a l ih =>
      simp only [List.map_cons, peak, List.foldr_cons] at ih ⊢
      rw [ih, abs_mul, abs_of_nonneg hc, max_mul_of_nonneg _ _ hc]

theorem exportSample_bounds (x : ℚ) :
    -32768 ≤ exportSample x ∧ exportSample x ≤ 32767 := by
  unfold exportSample truncQ
  set q := min (32767 : ℚ) (max (-32768 : ℚ) (x * 32767)) with hq
  have h1 : (-32768 : ℚ) ≤ q := le_min (by norm_num) (le_max_left _ _)
  have h2 : q ≤ 32767 := min_le_left _ _
  split_ifs with h
  · constructor
    · exact Int.le_floor.mpr (by exact_mod_cast h1)
    · have hf : (⌊q⌋ : ℚ) ≤ 32767 := le_trans (Int.floor_le q) h2
      exact_mod_cast hf
  · constructor
    · have hcl : (-32768 : ℚ) ≤ (⌈q⌉ : ℚ) := le_trans h1 (Int.le_ceil q)
      exact_mod_cast hcl
    · exact Int.ceil_le.mpr (by exact_mod_cast h2)

/-! Claim theorems. -/

/-- C1: for every empty or whitespace-only input text, `synth_pcm16`
returns an empty PCM buffer paired with the default 16 kHz sample rate,
without invoking the platform speech engine (and independently of every
engine outcome), and `export_wav` on the same input fails with the
empty-audio error instead of writing a file. -/
theorem c1_blank_text_synthesis (p : SynthParams) (text : String)
    (h : pyStrip text.toList = []) :
    (synth_pcm16 p text).result = .ok ([], default_samplerate) ∧
    (synth_pcm16 p text).engineInvoked = false ∧
    (synth_pcm16 p text).tmpCreated = false ∧
    (∀ q : SynthParams, synth_pcm16 q text = synth_pcm16 p text) ∧
    export_wav p text = .error "No audio was generated for the provided text." := by
  refine ⟨?_, ?_, ?_, ?_, ?_⟩ <;>
    simp [synth_pcm16, export_wav, show pyStrip text.data = [] from h]

/-- Witness for C1 at the whitespace-only input `"   "`. -/
theorem c1_blank_text_synthesis_witness :
    (synth_pcm16 ⟨.ok (), .ok ([16384], 16000), false⟩ "   ").result =
      .ok ([], default_samplerate) ∧
    export_wav ⟨.ok (), .ok ([16384], 16000), false⟩ "   " =
      .error "No audio was generated for the provided text." :=
  ⟨(c1_blank_text_synthesis ⟨.ok (), .ok ([16384], 16000), false⟩ "   " (by decide)).1,
   (c1_blank_text_synthesis ⟨.ok (), .ok ([16384], 16000), false⟩ "   " (by decide)).2.2.2.2⟩

/-- C5: `set_rate` stores exactly the value clamped to [-10, 10] and
`set_volume` stores exactly the value clamped to [0, 100]; out-of-range
inputs such as 999 and -5 are clamped to the bounds, and in-range inputs
are stored unchanged. -/
theorem c5_rate_volume_clamping (s : ServiceState) (v : Int) :
    (set_rate s v).rate = _clamp v (-10) 10 ∧
    (set_volume s v).volume = _clamp v 0 100 ∧
    (-10 ≤ v → v ≤ 10 → (set_rate s v).rate = v) ∧
    (0 ≤ v → v ≤ 100 → (set_volume s v).volume = v) ∧
    (set_rate s 999).rate = 10 ∧
    (set_volume s (-5)).volume = 0 := by
  refine ⟨rfl, rfl, ?_, ?_, ?_, ?_⟩
  · intro hlo hhi
    simp only [set_rate]
    omega
  · intro hlo hhi
    simp only [set_volume]
    omega
  · simp only [set_rate]
    decide
  · simp only [set_volume]
    decide

/-- Witness for C5 at the in-range inputs 7 and 50. -/
theorem c5_rate_volume_clamping_witness :
    (set_rate ⟨none, none, none, 0, 100⟩ 7).rate = 7 ∧
    (set_volume ⟨none, none, none, 0, 100⟩ 50).volume = 50 :=
  ⟨(c5_rate_volume_clamping ⟨none, none, none, 0, 100⟩ 7).2.2.1 (by decide) (by decide),
   (c5_rate_volume_clamping ⟨none, none, none, 0, 100⟩ 50).2.2.2.1 (by decide) (by decide)⟩

/-- C6: on every exit path of `synth_pcm16` with non-blank text — engine
success, engine failure, or read-back failure, and whether or not the
temporary file is already gone at cleanup time — the temporary WAV file
is created and then deleted, and the cleanup never raises (the
file-already-gone error is caught and ignored). -/
theorem c6_temp_file_cleanup (p : SynthParams) (text : String)
    (h : ¬ pyStrip text.toList = []) :
    (synth_pcm16 p text).tmpCreated = true ∧
    (synth_pcm16 p text).tmpExistsAfter = false ∧
    (synth_pcm16 p text).cleanupRaised = false := by
  obtain ⟨e, r, g⟩ := p
  have h2 : ¬ pyStrip text.data = [] := h
  cases e with
  | error msg => simp [synth_pcm16, h2, cleanupTmp_eq]
  | ok u =>
      cases r with
      | error msg => simp [synth_pcm16, h2, cleanupTmp_eq]
      | ok v =>
          obtain ⟨frames, sr⟩ := v
          simp [synth_pcm16, h2, cleanupTmp_eq]

/-- Witness for C6: a read-back failure with the temp file already gone
at cleanup time still ends with the file deleted and no cleanup error. -/
theorem c6_temp_file_cleanup_witness :
    (synth_pcm16 ⟨.ok (), .error "wave read failed", true⟩ "hello").tmpCreated = true ∧
    (synth_pcm16 ⟨.ok (), .error "wave read failed", true⟩ "hello").tmpExistsAfter = false ∧
    (synth_pcm16 ⟨.ok (), .error "wave read failed", true⟩ "hello").cleanupRaised = false :=
  c6_temp_file_cleanup ⟨.ok (), .error "wave read failed", true⟩ "hello" (by decide)

/-- C10: the export conversion clips every scaled sample into
[-32768, 32767] before the int16 cast, so every exported buffer —
including buffers with samples outside [-1, 1] — contains only valid
16-bit samples and never wraps around. -/
theorem c10_export_clipping (x : ℚ) (pcm : List ℚ) :
    (-32768 ≤ exportSample x ∧ exportSample x ≤ 32767) ∧
    ∀ i ∈ exportPcm pcm, -32768 ≤ i ∧ i ≤ 32767 := by
  refine ⟨exportSample_bounds x, ?_⟩
  intro i hi
  obtain ⟨y, _, rfl⟩ := List.mem_map.mp hi
  exact exportSample_bounds y

/-- Witness for C10 at the out-of-range sample 3/2: the exported value
stays inside the int16 range. -/
theorem c10_export_clipping_witness :
    (-32768 ≤ exportSample 2 ∧ exportSample 2 ≤ 32767) ∧
    (-32768 ≤ exportSample ((3 : ℚ)/2) ∧ exportSample ((3 : ℚ)/2) ≤ 32767) :=
  ⟨(c10_export_clipping 2 []).1,
   (c10_export_clipping 2 [(3 : ℚ)/2]).2 (exportSample ((3 : ℚ)/2))
     (by simp [exportPcm])⟩

/-- C8: device auto-selection scans the enumerated output devices
case-insensitively for the known virtual-cable name fragments and returns
the index of the first match; when no device name matches, it returns the
system default output index.  The concrete conjuncts exercise a table in
which an input-only device occupies index 0, the cable device sits at
enumeration index 2, and a table with no matching name. -/
theorem c8_device_auto_pick :
    (∀ (devs : List RawDevice) (defaultOut : Option Nat),
        (∀ d ∈ list_output_devices devs,
            nameMatches PREFERRED_VB_KEYWORDS d.name = false) →
        _auto_pick_output_device devs PREFERRED_VB_KEYWORDS defaultOut = defaultOut) ∧
    _auto_pick_output_device
      [⟨"Microphone Array", 0⟩,
       ⟨"Microsoft Sound Mapper - Output", 2⟩,
       ⟨"CABLE Input (VB-Audio Virtual Cable)", 8⟩,
       ⟨"Speakers (Realtek High Definition Audio)", 2⟩]
      PREFERRED_VB_KEYWORDS (some 1) = some 2 ∧
    _auto_pick_output_device
      [⟨"Speakers (Realtek High Definition Audio)", 2⟩, ⟨"Headphones", 2⟩]
      PREFERRED_VB_KEYWORDS (some 0) = some 0 := by
  refine ⟨?_, by decide, by decide⟩
  intro devs defaultOut hnone
  unfold _auto_pick_output_device
  rw [List.find?_eq_none.mpr]
  · intro d hd
    simp [hnone d hd]

/-- Witness for C8: a device table with no matching name falls back to
the given system default output index. -/
theorem c8_device_auto_pick_witness :
    _auto_pick_output_device [⟨"Headphones (USB)", 2⟩]
      PREFERRED_VB_KEYWORDS (some 4) = some 4 :=
  c8_device_auto_pick.1 [⟨"Headphones (USB)", 2⟩] (some 4) (by decide)

/-- C2 counterexample: with the primary device unset, `speak("")` fails
with the empty-audio error from synthesis, not with the
no-output-device-selected error, because `speak` synthesizes before
checking the device; so the claim does not hold for every input text. -/
theorem c2_counterexample :
    (⟨none, none, none, 0, 100⟩ : ServiceState).device_vb = none ∧
    (speak ⟨.ok (), .ok ([16384], 16000), false⟩ (fun _ => none)
        ⟨none, none, none, 0, 100⟩ "").result =
      .error "Speech synthesis returned empty audio." ∧
    "Speech synthesis returned empty audio." ≠
      "No VB-CABLE or virtual microphone output device has been selected." := by
  refine ⟨rfl, rfl, by decide⟩

/-- C2 (amended): whenever synthesis succeeds and the primary
(virtual-mic) device is unset, `speak` fails with the
no-output-device-selected error; and with the primary device unset no
playback stream is ever opened on any device, whatever synthesis does. -/
theorem c2_no_device_error (p : SynthParams) (play : Nat → Option String)
    (s : ServiceState) (text : String) (hdev : s.device_vb = none) :
    (∀ pcm sr, synthesize p text = .ok (pcm, sr) →
        (speak p play s text).result =
          .error "No VB-CABLE or virtual microphone output device has been selected.") ∧
    (speak p play s text).playbackDevices = [] := by
  constructor
  · intro pcm sr hok
    simp [speak, hok, hdev]
  · cases hsyn : synthesize p text with
    | error e => simp [speak, hsyn]
    | ok v => simp [speak, hsyn, hdev]

/-- Witness for C2 (amended): non-blank text, a successful engine, no
primary device: `speak` reports the no-device error. -/
theorem c2_no_device_error_witness :
    (speak ⟨.ok (), .ok ([16384], 16000), false⟩ (fun _ => none)
        ⟨none, none, none, 0, 100⟩ "hi").result =
      .error "No VB-CABLE or virtual microphone output device has been selected." :=
  (c2_no_device_error ⟨.ok (), .ok ([16384], 16000), false⟩ (fun _ => none)
      ⟨none, none, none, 0, 100⟩ "hi" rfl).1 (normalizePeak (importPcm [16384])) 16000
    (by simp [synthesize, synth_pcm16, show ¬ pyStrip "hi".data = [] from by decide,
      show (importPcm [(16384 : ℤ)]).length = 1 from by simp [importPcm]])

/-- C3: with a primary and a monitor device configured and synthesis
succeeding, per-device failures are captured individually: the aggregated
failure list contains exactly the failing devices with their messages,
`speak` raises one combined error precisely when some device failed, and
a successful primary with a failing monitor surfaces as a combined error
naming only the monitor's index and message. -/
theorem c3_playback_failure_aggregation (p : SynthParams)
    (play : Nat → Option String) (s : ServiceState) (text : String)
    (vb mon : Nat) (msg : String)
    (hvb : s.device_vb = some vb) (hmon : s.device_monitor = some mon)
    (hsyn : ∃ pcm sr, synthesize p text = .ok (pcm, sr)) :
    (∀ d m, ((d, m) ∈ failuresOf (gatherResults [vb, mon] play)) ↔
        ((d = vb ∨ d = mon) ∧ play d = some m)) ∧
    ((speak p play s text).result =
      if failuresOf (gatherResults [vb, mon] play) = [] then .ok ()
      else .error (combinedMessage (failuresOf (gatherResults [vb, mon] play)))) ∧
    (play vb = none → play mon = some msg →
      (speak p play s text).result = .error (combinedMessage [(mon, msg)])) := by
  obtain ⟨pcm, sr, hok⟩ := hsyn
  have hspeak : (speak p play s text).result = playAll [vb, mon] play := by
    simp [speak, hok, hvb, hmon]
  refine ⟨?_, ?_, ?_⟩
  · intro d m
    simp only [gatherResults, failuresOf, List.map_cons, List.map_nil,
      List.filterMap_cons, List.filterMap_nil]
    cases hpv : play vb <;> cases hpm : play mon <;>
      simp_all <;> aesop
  · rw [hspeak]
    unfold playAll
    by_cases hf : failuresOf (gatherResults [vb, mon] play) = [] <;>
      simp [hf]
  · intro hpv hpm
    rw [hspeak]
    simp [playAll, failuresOf, gatherResults, hpv, hpm]

/-- Witness for C3: primary device 3 succeeds, monitor device 7 fails
with message "boom"; the combined error names only device 7. -/
theorem c3_playback_failure_aggregation_witness :
    (speak ⟨.ok (), .ok ([16384], 16000), false⟩
        (fun d => if d = 7 then some "boom" else none)
        ⟨some 3, some 7, none, 0, 100⟩ "hi").result =
      .error (combinedMessage [(7, "boom")]) :=
  (c3_playback_failure_aggregation ⟨.ok (), .ok ([16384], 16000), false⟩
      (fun d => if d = 7 then some "boom" else none)
      ⟨some 3, some 7, none, 0, 100⟩ "hi" 3 7 "boom" rfl rfl
      ⟨normalizePeak (importPcm [16384]), 16000,
        by simp [synthesize, synth_pcm16, show ¬ pyStrip "hi".data = [] from by decide,
          show (importPcm [(16384 : ℤ)]).length = 1 from by simp [importPcm]]⟩).2.2
    (by decide) (by decide)

/-- C4: the façade's synthesize step peak-normalizes for safety: a
non-empty buffer whose peak exceeds 0.99 is uniformly scaled so its new
peak equals exactly 0.99 (the model computes in exact rationals, hence no
floating tolerance is needed), a buffer whose peak is below 0.99 is
returned unmodified, and `synthesize` applies exactly this normalization
to every non-empty backend buffer. -/
theorem c4_peak_normalization (pcm : List ℚ) :
    (peak pcm > 99 / 100 → peak (normalizePeak pcm) = 99 / 100) ∧
    (peak pcm < 99 / 100 → normalizePeak pcm = pcm) ∧
    (∀ (p : SynthParams) (text : String) (sr : Nat),
        (synth_pcm16 p text).result = .ok (pcm, sr) → pcm ≠ [] →
        synthesize p text = .ok (normalizePeak pcm, sr)) := by
  refine ⟨?_, ?_, ?_⟩
  · intro hpk
    have hp0 : (0 : ℚ) < peak pcm := lt_trans (by norm_num) hpk
    unfold normalizePeak
    rw [if_pos hpk, peak_map_mul _ (by positivity) pcm,
      mul_div_cancel₀ _ (ne_of_gt hp0)]
  · intro hpk
    unfold normalizePeak
    rw [if_neg (not_lt_of_lt hpk)]
  · intro p text sr hres hne
    simp [synthesize, hres, List.length_eq_zero, hne]

/-- Witness for C4: the buffer [3/2] with peak 3/2 is scaled to peak
99/100; the buffer [1/2] with peak 1/2 is left unmodified. -/
theorem c4_peak_normalization_witness :
    peak (normalizePeak [(3 : ℚ)/2]) = 99 / 100 ∧
    normalizePeak [(1 : ℚ)/2] = [(1 : ℚ)/2] :=
  ⟨(c4_peak_normalization [(3 : ℚ)/2]).1
      (by norm_num [peak, abs_of_nonneg (show (0 : ℚ) ≤ 3/2 by norm_num)]),
   (c4_peak_normalization [(1 : ℚ)/2]).2.1
      (by norm_num [peak, abs_of_nonneg (show (0 : ℚ) ≤ 1/2 by norm_num)])⟩

/-- One-sample round-trip bound: exporting a normalized sample to int16
and importing it back moves it by at most 2^-14 (two 16-bit quantization
steps, accounting for the asymmetric 32767/32768 scale and the
truncating cast). -/
theorem roundtrip_sample (x : ℚ) (h1 : -1 ≤ x) (h2 : x ≤ 1) :
    |importSample (exportSample x) - x| ≤ 1 / 16384 := by
  have hy1 : (-32768 : ℚ) ≤ x * 32767 := by nlinarith
  have hy2 : x * 32767 ≤ 32767 := by nlinarith
  have hclip : min (32767 : ℚ) (max (-32768 : ℚ) (x * 32767)) = x * 32767 := by
    rw [max_eq_right hy1, min_eq_right hy2]
  unfold importSample exportSample truncQ
  rw [hclip]
  split_ifs with h
  · have hf1 : (⌊x * 32767⌋ : ℚ) ≤ x * 32767 := Int.floor_le _
    have hf2 : x * 32767 < ⌊x * 32767⌋ + 1 := Int.lt_floor_add_one _
    rw [abs_le]
    constructor <;> [nlinarith; nlinarith]
  · have hc1 : x * 32767 ≤ (⌈x * 32767⌉ : ℚ) := Int.le_ceil _
    have hc2 : (⌈x * 32767⌉ : ℚ) < x * 32767 + 1 := Int.ceil_lt_add_one _
    rw [abs_le]
    constructor <;> [nlinarith; nlinarith]

/-- C7: round-trip law — exporting a non-empty buffer of normalized
samples through the int16 conversion and importing it back reproduces
every sample within 16-bit quantization error (at most 2^-14 per
sample). -/
theorem c7_pcm_roundtrip (pcm : List ℚ) (_hne : pcm ≠ [])
    (hnorm : ∀ x ∈ pcm, -1 ≤ x ∧ x ≤ 1) :
    List.Forall₂ (fun a b => |b - a| ≤ 1 / 16384) pcm (importPcm (exportPcm pcm)) := by
  unfold importPcm exportPcm
  rw [List.map_map, List.forall₂_map_right_iff, List.forall₂_same]
  intro x hx
  exact roundtrip_sample x (hnorm x hx).1 (hnorm x hx).2

/-- Witness for C7 at the one-sample buffer [1/2]. -/
theorem c7_pcm_roundtrip_witness :
    List.Forall₂ (fun a b => |b - a| ≤ 1 / 16384) [(1 : ℚ)/2]
      (importPcm (exportPcm [(1 : ℚ)/2])) :=
  c7_pcm_roundtrip [(1 : ℚ)/2] (by simp)
    (by intro x hx; rw [List.mem_singleton] at hx; subst hx; norm_num)

mutual

/-- A `_com_scope` entered while the thread-local count is positive is a
pure no-op on the COM bookkeeping: the body's nested scopes run, the
count returns to its entry value, and no initialization or
uninitialization call is made. -/
theorem runScope_nested (t : ScopeTree) (s : ComState) (h : 0 < s.count) :
    runScope t s = s := by
  cases t with
  | node body =>
      unfold runScope
      rw [if_pos h]
      have hb : runForest body (comEnter s) = comEnter s :=
        runForest_nested body (comEnter s)
          (by simp [comEnter, if_pos h])
      rw [hb]
      simp [comEnter, if_pos h]

/-- Sibling scopes run from a positive count leave the state unchanged. -/
theorem runForest_nested (f : ScopeForest) (s : ComState) (h : 0 < s.count) :
    runForest f s = s := by
  cases f with
  | nil => rfl
  | cons t rest =>
      unfold runForest
      rw [runScope_nested t s h, runForest_nested rest s h]

end

/-- C9: the COM guard is correctly reference-counted per thread.
Entering a scope at count zero performs exactly one `CoInitialize` and
sets the count to 1; a nested entry only increments the count and makes
no initialization call; every scope is balanced (the count after equals
the count before); a scope entered at a positive count makes neither an
initialization nor an uninitialization call; and a scope entered at count
zero ends with the count back at zero having made exactly one
`CoInitialize` and exactly one matching `CoUninitialize` — the
uninitialization happening exactly when the count returns to zero,
whatever nesting (and, since every `finally` runs during unwinding,
whatever exit path) its body takes. -/
theorem c9_com_refcount (s : ComState) (t : ScopeTree) :
    (s.count = 0 → comEnter s = ⟨1, s.initCalls + 1, s.uninitCalls⟩) ∧
    (0 < s.count → comEnter s = { s with count := s.count + 1 }) ∧
    ((runScope t s).count = s.count) ∧
    (0 < s.count →
      runScope t s = s) ∧
    (s.count = 0 →
      runScope t s = ⟨0, s.initCalls + 1, s.uninitCalls + 1⟩) := by
  have houter : s.count = 0 →
      runScope t s = ⟨0, s.initCalls + 1, s.uninitCalls + 1⟩ := by
    intro h0
    cases t with
    | node body =>
        unfold runScope
        rw [if_neg (by omega)]
        have he : comEnter s = ⟨1, s.initCalls + 1, s.uninitCalls⟩ := by
          simp [comEnter, h0]
        rw [he, runForest_nested body _ (by simp)]
  refine ⟨?_, ?_, ?_, runScope_nested t s, houter⟩
  · intro h0
    simp [comEnter, h0]
  · intro hpos
    simp [comEnter, if_pos hpos]
  · rcases Nat.eq_zero_or_pos s.count with h0 | hpos
    · rw [houter h0, h0]
    · rw [runScope_nested t s hpos]

/-- Witness for C9: one scope with one nested scope, started with a zero
count, makes exactly one init and one uninit and returns the count to
zero. -/
theorem c9_com_refcount_witness :
    runScope (.node (.cons (.node .nil) .nil)) ⟨0, 0, 0⟩ = ⟨0, 1, 1⟩ :=
  (c9_com_refcount ⟨0, 0, 0⟩ (.node (.cons (.node .nil) .nil))).2.2.2.2 rfl
